import Mathlib

/-!
# Verification of the blinks discovery-and-resolution pipeline

Shallow embedding of the core of the `blinks` repository: the security gate
(`src/shared/security.ts`), the option normalization and the two observer
pipelines (`setupFarcasterObserver` / `setupTwitterObserver` and their
`handleNewNode` dispatch functions), and the render-mount bookkeeping
(`addMargin` + `replaceChildren`).

External collaborators (trust oracle, interstitial decoder, manifest mapper,
action adapter, DOM query results) are supplied as oracle fields of an
environment record; the pipeline itself is translated statement by statement
from the source, producing the list of observable effects (DOM mutations and
network calls) a dispatch performs.
-/

namespace Blinks

/-- Trust classification of a URL/origin, produced by the external oracle
(`ExtendedActionState` in the source). -/
inductive ExtendedActionState
  | trusted
  | unknown
  | malicious
deriving DecidableEq, Repr

/-- `SecurityLevel` from `src/shared/security.ts`. -/
inductive SecurityLevel
  | onlyTrusted
  | nonMalicious
  | all
deriving DecidableEq, Repr

/-- The `switch` statement inside `checkSecurity` in `src/shared/security.ts`.
In the source this switch is dead code: it is preceded by an unconditional
`return true` (marked "testing only - should be removed for production"). -/
def checkSecuritySwitch (state : ExtendedActionState) (securityLevel : SecurityLevel) : Bool :=
  match securityLevel with
  | .onlyTrusted => state == .trusted
  | .nonMalicious => state != .malicious
  | .all => true

/-- `checkSecurity` exactly as the source executes it: the function body begins
with `return true;` (commented "testing only - should be removed for
production"), so the switch below it is never reached. -/
def checkSecurity (_state : ExtendedActionState) (_securityLevel : SecurityLevel) : Bool :=
  true

/-- Per-category security configuration
(`Record<'websites' | 'interstitials' | 'actions', ObserverSecurityLevel>`). -/
structure SecurityPolicyRecord where
  websites : SecurityLevel
  interstitials : SecurityLevel
  actions : SecurityLevel
deriving DecidableEq, Repr

/-- The `securityLevel` field of `ObserverOptions`: either a single scalar
level or a per-category record. -/
inductive SecurityLevelOption
  | scalar (l : SecurityLevel)
  | record (r : SecurityPolicyRecord)
deriving DecidableEq, Repr

/-- `DEFAULT_OPTIONS.securityLevel = 'only-trusted'`. -/
def DEFAULT_SECURITY_LEVEL : SecurityLevel := .onlyTrusted

/-- `normalizeOptions` from the two observer modules: `Partial<ObserverOptions>`
(its `securityLevel` field modelled as an `Option`) to the normalized
per-category record.  Mirrors the source's three cases: absent (`!options.securityLevel`),
scalar (`typeof === 'string'`), and record (used verbatim). -/
def normalizeOptions (securityLevel : Option SecurityLevelOption) : SecurityPolicyRecord :=
  match securityLevel with
  | none =>
      { websites := DEFAULT_SECURITY_LEVEL
        interstitials := DEFAULT_SECURITY_LEVEL
        actions := DEFAULT_SECURITY_LEVEL }
  | some (.scalar l) =>
      { websites := l, interstitials := l, actions := l }
  | some (.record r) => r

/-! ## URLs, collaborator contracts and observable effects -/

/-- JavaScript `String.prototype.includes`: substring containment. -/
def strContains (s pat : String) : Bool :=
  decide (pat.toList <:+: s.toList)

/-- A parsed URL as the pipeline uses it: its string form (`toString`/`href`)
and its `origin`. -/
structure URLT where
  href : String
  origin : String
deriving DecidableEq, Repr

/-- Result of the external interstitial decoder `isInterstitial(url)`
(`{ isInterstitial: bool, decodedActionUrl?: string }`). -/
structure InterstitialData where
  isInterstitial : Bool
  decodedActionUrl : String
deriving DecidableEq, Repr

/-- One option of the hard-coded dropdown built by `createDropdown` in the
Twitter observer. -/
structure DropdownOption where
  name : String
  description : String
  verified : String
  act : String
deriving DecidableEq, Repr

/-- The four hard-coded options of the dropdown `createDropdown` builds. -/
def twitterDropdownOptions : List DropdownOption :=
  [ { name := "Access Protocol", description := "gate your content",
      verified := "Yes", act := "access-protocol.dial.to" },
    { name := "Arkenstone Suite", description := "developing a token presale Suite",
      verified := "No", act := "arkenstone.gold" },
    { name := "Blinks", description := "Blinks Inspector",
      verified := "Yes", act := "blinks.gg" },
    { name := "Sol Casino", description := "Roulette on Solana",
      verified := "Yes", act := "solcasino.io" } ]

/-- Observable effects of one `handleNewNode` dispatch: DOM mutations and
network calls, in program order.  (`console.log` is neither and is not
recorded.) -/
inductive Effect
  /-- `container.remove()`: a pre-existing `.dialect-wrapper` is detached. -/
  | removeWrapper
  /-- `getContainerForLink`: a fresh `.dialect-wrapper` div is inserted into
  the page (`dm` is true when it also received the `dialect-dm` class and was
  prepended to a message container). -/
  | insertWrapper (dm : Bool)
  /-- `findBookmarkButton` sets `data-dialect-processed` on the bookmark
  button's parent. -/
  | markProcessed
  /-- `createDropdown` builds the promotional dropdown and it ends up inserted
  next to/inside the bookmark button's parent (the source first `insertBefore`s
  it as a sibling and then `append`s the same node, which re-parents it; the
  net result is one dropdown, modelled as one insertion). -/
  | insertDropdown (options : List DropdownOption)
  /-- `resolveTwitterShortenedUrl`: network fetch of the shortened URL. -/
  | fetchUnshorten (url : String)
  /-- `fetch(proxify(actionsJsonUrl))`: network fetch of the manifest (the
  proxy wrapper is an external pure function; the effect records the manifest
  URL it wraps). -/
  | fetchManifest (url : String)
  /-- `Action.fetch(actionApiUrl, config)`: network fetch of the action. -/
  | fetchAction (url : String)
  /-- `addMargin(container).replaceChildren(createAction(...))`: the render is
  mounted, replacing all children of the mount container. -/
  | mountRender
deriving DecidableEq, Repr

/-- Outcomes of the external collaborators consulted by the resolution stages
of `handleNewNode` (identical in the Farcaster and Twitter modules). -/
structure ResolveEnv where
  /-- `isInterstitial(actionUrl)`. -/
  interstitial : InterstitialData
  /-- `getExtendedInterstitialState(actionUrl.toString())`. -/
  interstitialState : ExtendedActionState
  /-- `getExtendedWebsiteState(actionUrl.toString())`. -/
  websiteState : ExtendedActionState
  /-- whether `fetch(proxify(actionsJsonUrl)).then(res => res.json())`
  succeeds (a rejection aborts the async function; the `.catch(noop)` at the
  dispatch site swallows it). -/
  manifestFetchOk : Bool
  /-- `actionsUrlMapper.mapUrl(actionUrl)` (null when the manifest declares no
  matching rule). -/
  mappedUrl : Option String
  /-- `getExtendedActionState(actionApiUrl)`. -/
  actionState : String → ExtendedActionState
  /-- whether `Action.fetch(actionApiUrl, config)` succeeds (`.catch(noop)`
  turns failure into an absent action). -/
  actionFetchOk : Bool
  /-- `config.isSupported`: `none` when the adapter has no predicate, otherwise
  the predicate's result. -/
  isSupported : Option Bool
  /-- the normalized per-category security configuration. -/
  securityLevel : SecurityPolicyRecord

/-- The tail of `handleNewNode` after `actionApiUrl` is known: the `actions`
security checkpoint, `Action.fetch`, the optional `isSupported` predicate and
the final mount.  (`getExtendedActionState` always returns one of the three
states, all truthy, so `!state` in the source never fires when `actionApiUrl`
is present.) -/
def postResolve (env : ResolveEnv) (actionApiUrl : Option String) : List Effect :=
  match actionApiUrl with
  | none => []
  | some u =>
      if ¬ checkSecurity (env.actionState u) env.securityLevel.actions then []
      else
        Effect.fetchAction u ::
        (if ¬ env.actionFetchOk then []
         else if env.isSupported = some false then []
         else [Effect.mountRender])

/-- The three-branch resolution of `handleNewNode`, from `isInterstitial` on:
interstitial decode gated by the `interstitials` checkpoint, or website
manifest fetch gated by the `websites` checkpoint, then `postResolve`. -/
def resolveAction (env : ResolveEnv) (actionUrl : URLT) : List Effect :=
  if env.interstitial.isInterstitial then
    if ¬ checkSecurity env.interstitialState env.securityLevel.interstitials then []
    else postResolve env (some env.interstitial.decodedActionUrl)
  else
    if ¬ checkSecurity env.websiteState env.securityLevel.websites then []
    else
      Effect.fetchManifest (actionUrl.origin ++ "/actions.json") ::
      (if ¬ env.manifestFetchOk then []
       else postResolve env env.mappedUrl)

/-! ## Farcaster pipeline (`setupFarcasterObserver` module) -/

/-- The inserted element as the Farcaster quick filtration sees it. -/
structure FcElement where
  localName : String
  className : String
deriving DecidableEq, Repr

/-- Environment of one Farcaster `handleNewNode` dispatch: the element plus
the outcomes of the DOM queries and external collaborators it consults. -/
structure FcEnv where
  element : FcElement
  /-- `findLinkPreview`: `element.querySelector('a')`, the first anchor inside
  the element, if any (the Farcaster variant uses the element itself as the
  card).  `none` means the element contains no anchor at all. -/
  firstAnchor : Option URLT
  /-- `findContainerInCast(card, true)`: whether an existing
  `.dialect-wrapper` is found near the card. -/
  existingWrapper : Bool
  /-- whether `linkPreview.card.parentElement` is non-null. -/
  cardParentExists : Bool
  /-- `getContainerForLink`: whether `castText.closest('[class="relative"]')`
  found a message/DM container. -/
  isDm : Bool
  /-- whether the parent chain `getContainerForLink` inserts into exists
  (`castText.parentElement?...` — with `?.` short-circuiting, a missing parent
  leaves the fresh wrapper detached). -/
  linkParentExists : Bool
  resolve : ResolveEnv

/-- `handleNewNode` of the Farcaster module, as a function from the dispatch
environment to the list of observable effects, translated branch by branch
from the source.  Note that in the no-anchor branch `getContainerForLink`
runs (inserting a fresh wrapper) before the `!anchor || !container` guard
returns. -/
def handleNewNodeFarcaster (env : FcEnv) : List Effect :=
  if env.element.localName ≠ "div" then []
  else if ¬ (strContains env.element.className " fade-in"
             || strContains env.element.className "relative") then []
  else
    match env.firstAnchor with
    | some anchor =>
        -- link-preview branch: remove any existing wrapper, mount point is
        -- the card's parent element
        (if env.existingWrapper then [Effect.removeWrapper] else []) ++
        (if ¬ env.cardParentExists then []
         else resolveAction env.resolve anchor)
    | none =>
        -- `getContainerForLink(element)` inserts a fresh wrapper, then the
        -- `!anchor` guard returns (anchor was never assigned)
        if env.linkParentExists then [Effect.insertWrapper env.isDm] else []

/-! ## Twitter pipeline (`setupTwitterObserver` module) -/

/-- Environment of one Twitter `handleNewNode` dispatch. -/
structure TwEnv where
  /-- `element.localName`. -/
  localName : String
  /-- `findLinkPreview`: the anchor `card.children[0]?.children[0]` inside a
  `[data-testid="card.wrapper"]`, when present. -/
  linkPreview : Option URLT
  /-- whether `linkPreview.card.parentElement` is non-null. -/
  cardParentExists : Bool
  /-- `findBookmarkButton` state: `none` when no tweet ancestor / bookmark
  button / parent exists; `some p` when the bookmark button's parent exists,
  with `p` the current value of its `data-dialect-processed` flag. -/
  bookmarkState : Option Bool
  /-- `findContainerInTweet`: whether an existing `.dialect-wrapper` is found
  under the closest tweet/messageEntry. -/
  existingWrapper : Bool
  /-- `findLastLinkInText`: the last anchor inside `[data-testid="tweetText"]`,
  when present. -/
  lastLink : Option URLT
  /-- whether the parent chain `getContainerForLink` inserts into exists. -/
  linkParentExists : Bool
  /-- whether `tweetText.closest('[data-testid="messageEntry"]')` found a
  message/DM container. -/
  isDm : Bool
  /-- `resolveTwitterShortenedUrl(anchor.href)`: the unshortened URL, or
  `none` when the fetch or `new URL(...)` fails (the exception is swallowed by
  `.catch(noop)` at the dispatch site). -/
  resolveResult : Option URLT
  resolve : ResolveEnv

/-- `findBookmarkButton`: returns whether the (unprocessed) bookmark-button
parent was found, and the updated environment — the function reads
`data-dialect-processed` and sets it with no intervening `await`. -/
def findBookmarkButton (env : TwEnv) : Bool × TwEnv :=
  match env.bookmarkState with
  | some false => (true, { env with bookmarkState := some true })
  | _ => (false, env)

/-- The candidate-extraction and resolution part of the Twitter
`handleNewNode` (everything after the bookmark-dropdown insertion),
translated branch by branch from the source. -/
def twitterPipeline (env : TwEnv) : List Effect :=
  match env.linkPreview with
  | some anchor =>
      (if env.existingWrapper then [Effect.removeWrapper] else []) ++
      (if ¬ env.cardParentExists then []
       else twitterResolve env anchor)
  | none =>
      -- `if (container) return;` — skip when a wrapper already exists
      if env.existingWrapper then []
      else
        match env.lastLink with
        | some anchor =>
            (if env.linkParentExists then [Effect.insertWrapper env.isDm] else []) ++
            twitterResolve env anchor
        | none => []
where
  /-- the Twitter resolution tail: unshorten fetch, then the shared
  three-branch resolution. -/
  twitterResolve (env : TwEnv) (anchor : URLT) : List Effect :=
    Effect.fetchUnshorten anchor.href ::
    (match env.resolveResult with
     | none => []
     | some actionUrl => resolveAction env.resolve actionUrl)

/-- `handleNewNode` of the Twitter module: quick filtration, then the
bookmark-dropdown side channel (`findBookmarkButton` +
`likeButton.append(createDropdown(likeButton))`), then the extraction and
resolution pipeline.  Returns the effect trace and the updated environment
(the `data-dialect-processed` flag is the only dispatch-visible state). -/
def handleNewNodeTwitter (env : TwEnv) : List Effect × TwEnv :=
  if env.localName ≠ "div" then ([], env)
  else
    let found := findBookmarkButton env
    ((if found.1 then
        [Effect.markProcessed, Effect.insertDropdown twitterDropdownOptions]
      else []) ++ twitterPipeline found.2,
     found.2)

/-! ## Render mount: `addMargin` and `replaceChildren` -/

/-- A mount container as the render-mount step sees it: its class list, the
children it holds, and its margin styles. -/
structure Wrapper where
  classes : List String
  children : List String
  marginTop : Option Nat
  marginBottom : Option Nat
deriving DecidableEq, Repr

/-- `addMargin` from both observer modules: margins are applied only when the
element carries the `dialect-wrapper` class, and the bottom margin
additionally requires the `dialect-dm` class. -/
def addMargin (element : Wrapper) : Wrapper :=
  if element.classes.contains "dialect-wrapper" then
    let withTop := { element with marginTop := some 12 }
    if element.classes.contains "dialect-dm" then
      { withTop with marginBottom := some 8 }
    else withTop
  else element

/-- `addMargin(container).replaceChildren(createAction(...))`: the mount step.
`replaceChildren` with one argument replaces all children of the container
with exactly that node. -/
def mountInto (container : Wrapper) (content : String) : Wrapper :=
  { addMargin container with children := [content] }

/-! ## Tree watcher: the MutationObserver callback and setup gating -/

/-- A node delivered by a mutation record: an element or a non-element (text,
comment, ...) node. -/
inductive DomNode
  | element (id : Nat)
  | text (id : Nat)
deriving DecidableEq, Repr

/-- `node.nodeType === Node.ELEMENT_NODE`. -/
def DomNode.isElement : DomNode → Bool
  | .element _ => true
  | .text _ => false

/-- One `MutationRecord`, reduced to its `addedNodes` list. -/
structure MutationRecord where
  addedNodes : List DomNode
deriving DecidableEq, Repr

/-- The inner `for` loop over `mutation.addedNodes`: dispatches element nodes
in order, but on the first non-element node executes `return` — which exits
the whole observer callback.  Returns the nodes dispatched from this record
and whether the callback was aborted. -/
def processAddedNodes : List DomNode → List DomNode × Bool
  | [] => ([], false)
  | n :: rest =>
      if n.isElement then
        let r := processAddedNodes rest
        (n :: r.1, r.2)
      else ([], true)

/-- The MutationObserver callback of both observer modules: iterates the
mutation records, dispatching each added element through `handleNewNode`
(fire-and-forget, `.catch(noop)`), with the `return`-on-non-element aborting
the remaining records as well.  Returns the list of dispatched nodes. -/
def observerCallback : List MutationRecord → List DomNode
  | [] => []
  | m :: rest =>
      let r := processAddedNodes m.addedNodes
      if r.2 then r.1 else r.1 ++ observerCallback rest

/-- Events of observer setup (`setupFarcasterObserver` /
`setupTwitterObserver`). -/
inductive SetupEvent
  | registryInitStarted
  | attachObserver
  | dispatch (n : DomNode)
deriving DecidableEq, Repr

/-- `refreshRegistry().then(() => { ...; observer.observe(root, ...) })`:
the observer is created and attached only inside the `.then` callback, so
nothing after `registryInitStarted` happens unless
`ActionsRegistry.getInstance().init()` resolves.  `batches` are the mutation
batches the page would deliver once (and only if) the observer is attached. -/
def setupObserverTrace (initResolves : Bool) (batches : List (List MutationRecord)) :
    List SetupEvent :=
  SetupEvent.registryInitStarted ::
  (if initResolves then
    SetupEvent.attachObserver ::
      (batches.map (fun ms => (observerCallback ms).map SetupEvent.dispatch)).flatten
   else [])

/-! ## Sample environments used by concrete theorems -/

/-- Resolution environment of the C2 failing input: a non-interstitial URL
whose website trust state is `unknown`, under
`securityLevel = { websites: only-trusted, interstitials: all, actions: all }`. -/
def resolveEnvUnknownWebsite : ResolveEnv :=
  { interstitial := { isInterstitial := false, decodedActionUrl := "" }
    interstitialState := ExtendedActionState.trusted
    websiteState := ExtendedActionState.unknown
    manifestFetchOk := true
    mappedUrl := some "https://example.com/api/action"
    actionState := fun _ => ExtendedActionState.trusted
    actionFetchOk := true
    isSupported := none
    securityLevel :=
      { websites := SecurityLevel.onlyTrusted
        interstitials := SecurityLevel.all
        actions := SecurityLevel.all } }

/-- Farcaster dispatch environment of the C2 failing input: a marker-matching
div containing an anchor to `https://example.com/x`. -/
def fcEnvUnknownWebsite : FcEnv :=
  { element := { localName := "div", className := "relative" }
    firstAnchor := some { href := "https://example.com/x", origin := "https://example.com" }
    existingWrapper := false
    cardParentExists := true
    isDm := false
    linkParentExists := true
    resolve := resolveEnvUnknownWebsite }

/-! ## Claim theorems -/

/-- C1: the claim states `checkSecurity(s, l)` is true iff `l = all`, or
`l = non-malicious` and `s ≠ malicious`, or `l = only-trusted` and
`s = trusted`; in particular `checkSecurity(unknown, only-trusted) = false`
and `checkSecurity(malicious, non-malicious) = false`.  The code violates
this: an unconditional `return true` (commented "testing only - should be
removed for production") precedes the switch, so `checkSecurity` returns
`true` on both of the claim's particular inputs.  The dead switch below the
early return (`checkSecuritySwitch`) does satisfy the claimed semantics at
those inputs. -/
theorem checkSecurity_testing_backdoor :
    checkSecurity ExtendedActionState.unknown SecurityLevel.onlyTrusted = true ∧
    checkSecurity ExtendedActionState.malicious SecurityLevel.nonMalicious = true ∧
    checkSecuritySwitch ExtendedActionState.unknown SecurityLevel.onlyTrusted = false ∧
    checkSecuritySwitch ExtendedActionState.malicious SecurityLevel.nonMalicious = false := by
  decide

/-- C2: the claim states that under
`securityLevel = { websites: only-trusted, interstitials: all, actions: all }`
a candidate whose non-interstitial URL has website trust state `unknown` is
rejected at the websites checkpoint before the `actions.json` manifest fetch.
The code violates this: because `checkSecurity` unconditionally returns
`true`, the dispatch passes the websites checkpoint and performs the manifest
fetch. -/
theorem unknown_website_manifest_fetched :
    resolveEnvUnknownWebsite.websiteState = ExtendedActionState.unknown ∧
    resolveEnvUnknownWebsite.securityLevel.websites = SecurityLevel.onlyTrusted ∧
    Effect.fetchManifest "https://example.com/actions.json"
      ∈ handleNewNodeFarcaster fcEnvUnknownWebsite := by
  refine ⟨rfl, rfl, ?_⟩
  decide

/-- C6: the claim states every inserted element node of a mutation batch is
dispatched exactly once, and a non-element node earlier in the batch does not
prevent later element nodes from being dispatched.  The code violates this:
on a non-element added node the callback executes `return` (the source even
carries a commented-out `continue` at that spot), aborting the whole batch.
At the failing input — one mutation record adding a text node followed by an
element node — nothing is dispatched; a later mutation record after a
non-element insertion is likewise dropped. -/
theorem observer_batch_abort :
    observerCallback [{ addedNodes := [DomNode.text 0, DomNode.element 1] }] = [] ∧
    observerCallback
      [{ addedNodes := [DomNode.element 1] },
       { addedNodes := [DomNode.text 0] },
       { addedNodes := [DomNode.element 2] }] = [DomNode.element 1] ∧
    observerCallback
      [{ addedNodes := [DomNode.element 1] },
       { addedNodes := [DomNode.element 2] }] = [DomNode.element 1, DomNode.element 2] := by
  decide

/-- C9: `normalizeOptions` broadcasts a scalar security level to all three
checkpoint categories, uses a per-category record verbatim, and defaults all
three categories to `only-trusted` when the option is absent. -/
theorem normalizeOptions_spec :
    normalizeOptions none =
      { websites := SecurityLevel.onlyTrusted
        interstitials := SecurityLevel.onlyTrusted
        actions := SecurityLevel.onlyTrusted } ∧
    (∀ l : SecurityLevel,
      normalizeOptions (some (SecurityLevelOption.scalar l)) =
        { websites := l, interstitials := l, actions := l }) ∧
    (∀ r : SecurityPolicyRecord,
      normalizeOptions (some (SecurityLevelOption.record r)) = r) :=
  ⟨rfl, fun _ => rfl, fun _ => rfl⟩

/-- A Farcaster element whose className matches neither marker. -/
def fcEnvNoMarker : FcEnv :=
  { element := { localName := "div", className := "cast-body plain" }
    firstAnchor := some { href := "https://example.com/x", origin := "https://example.com" }
    existingWrapper := true
    cardParentExists := true
    isDm := false
    linkParentExists := true
    resolve := resolveEnvUnknownWebsite }

/-- A Twitter insertion that is not a div. -/
def twEnvNonDiv : TwEnv :=
  { localName := "span"
    linkPreview := some { href := "https://t.co/abc", origin := "https://t.co" }
    cardParentExists := true
    bookmarkState := some false
    existingWrapper := false
    lastLink := none
    linkParentExists := true
    isDm := false
    resolveResult := some { href := "https://example.com/x", origin := "https://example.com" }
    resolve := resolveEnvUnknownWebsite }

/-- C3: an inserted element that does not match the platform marker class
names produces no effect at all.  For the Farcaster pipeline (markers
` fade-in` and `relative`, as the claim instantiates them) a className
matching neither marker yields an empty effect trace — no DOM mutation, no
network call; for the Twitter pipeline the quick filtration likewise ignores
any non-div insertion, leaving the trace empty and the page state (the
processed flag) unchanged. -/
theorem no_marker_silent_noop :
    (∀ env : FcEnv,
      strContains env.element.className " fade-in" = false →
      strContains env.element.className "relative" = false →
      handleNewNodeFarcaster env = []) ∧
    (∀ env : TwEnv, env.localName ≠ "div" →
      (handleNewNodeTwitter env).1 = [] ∧ (handleNewNodeTwitter env).2 = env) := by
  constructor
  · intro env h1 h2
    unfold handleNewNodeFarcaster
    split
    · rfl
    · rw [h1, h2]
      simp
  · intro env h
    unfold handleNewNodeTwitter
    simp [h]

/-- Witness for C3 at concrete inputs. -/
theorem no_marker_silent_noop_witness :
    handleNewNodeFarcaster fcEnvNoMarker = [] ∧
    (handleNewNodeTwitter twEnvNonDiv).1 = [] :=
  ⟨no_marker_silent_noop.1 fcEnvNoMarker (by decide) (by decide),
   (no_marker_silent_noop.2 twEnvNonDiv (by decide)).1⟩

/-- A Twitter in-text-link dispatch environment whose container already holds
a `.dialect-wrapper` (no link-preview card). -/
def twEnvExistingWrapper : TwEnv :=
  { localName := "div"
    linkPreview := none
    cardParentExists := true
    bookmarkState := none
    existingWrapper := true
    lastLink := some { href := "https://t.co/abc", origin := "https://t.co" }
    linkParentExists := true
    isDm := false
    resolveResult := some { href := "https://example.com/x", origin := "https://example.com" }
    resolve := resolveEnvUnknownWebsite }

/-- C4: re-mounting supersedes.  `replaceChildren` semantics mean a second
mount into the same container leaves exactly one child — the second mount's
content — never an appended sibling; and in the Twitter in-text-link strategy
a dispatch that finds an existing wrapper for the container skips without
reprocessing (its extraction/resolution pipeline emits no effect). -/
theorem mount_supersedes_and_skip :
    (∀ (w : Wrapper) (c₁ c₂ : String),
      (mountInto (mountInto w c₁) c₂).children = [c₂] ∧
      (mountInto w c₁).children.length = 1) ∧
    (∀ env : TwEnv, env.linkPreview = none → env.existingWrapper = true →
      twitterPipeline env = []) := by
  constructor
  · intro w c₁ c₂
    exact ⟨rfl, rfl⟩
  · intro env h1 h2
    unfold twitterPipeline
    rw [h1, h2]
    simp

/-- A sample wrapper already holding content, used as a re-mount target. -/
def sampleWrapper : Wrapper :=
  { classes := ["dialect-wrapper"], children := ["old"],
    marginTop := none, marginBottom := none }

/-- Witness for C4 at concrete inputs. -/
theorem mount_supersedes_and_skip_witness :
    (mountInto (mountInto sampleWrapper "first") "second").children = ["second"] ∧
    twitterPipeline twEnvExistingWrapper = [] :=
  ⟨(mount_supersedes_and_skip.1 sampleWrapper "first" "second").1,
   mount_supersedes_and_skip.2 twEnvExistingWrapper rfl rfl⟩

/-- Resolution environment in which every stage succeeds except the adapter's
`isSupported` predicate, which declines. -/
def resolveEnvUnsupported : ResolveEnv :=
  { interstitial := { isInterstitial := false, decodedActionUrl := "" }
    interstitialState := ExtendedActionState.trusted
    websiteState := ExtendedActionState.trusted
    manifestFetchOk := true
    mappedUrl := some "https://example.com/api/action"
    actionState := fun _ => ExtendedActionState.trusted
    actionFetchOk := true
    isSupported := some false
    securityLevel :=
      { websites := SecurityLevel.all
        interstitials := SecurityLevel.all
        actions := SecurityLevel.all } }

/-- A Twitter link-preview dispatch whose container already holds a
`.dialect-wrapper`, reaching an `isSupported` rejection. -/
def twEnvUnsupported : TwEnv :=
  { localName := "div"
    linkPreview := some { href := "https://t.co/abc", origin := "https://t.co" }
    cardParentExists := true
    bookmarkState := none
    existingWrapper := true
    lastLink := none
    linkParentExists := true
    isDm := false
    resolveResult := some { href := "https://example.com/x", origin := "https://example.com" }
    resolve := resolveEnvUnsupported }

/-- When the adapter's predicate declines, the final mount step is never
reached in the resolution tail. -/
theorem mountRender_notin_postResolve (env : ResolveEnv) (u : Option String)
    (h : env.isSupported = some false) :
    Effect.mountRender ∉ postResolve env u := by
  unfold postResolve
  cases u with
  | none => simp
  | some v =>
      split
      · simp
      · simp [h]

/-- When the adapter's predicate declines, the resolution branches emit no
mount. -/
theorem mountRender_notin_resolveAction (env : ResolveEnv) (url : URLT)
    (h : env.isSupported = some false) :
    Effect.mountRender ∉ resolveAction env url := by
  unfold resolveAction
  split
  · split
    · simp
    · exact mountRender_notin_postResolve env _ h
  · split
    · simp
    · intro hmem
      rcases List.mem_cons.mp hmem with h1 | h1
      · exact Effect.noConfusion h1
      · split at h1
        · simp at h1
        · exact mountRender_notin_postResolve env _ h h1

/-- When the adapter's predicate declines, the Twitter extraction/resolution
pipeline emits no mount. -/
theorem mountRender_notin_twitterPipeline (env : TwEnv)
    (h : env.resolve.isSupported = some false) :
    Effect.mountRender ∉ twitterPipeline env := by
  have hres : ∀ (anchor : URLT),
      Effect.mountRender ∉ twitterPipeline.twitterResolve env anchor := by
    intro anchor hmem
    unfold twitterPipeline.twitterResolve at hmem
    rcases List.mem_cons.mp hmem with h1 | h1
    · exact Effect.noConfusion h1
    · cases hr : env.resolveResult with
      | none => rw [hr] at h1; simp at h1
      | some u => rw [hr] at h1; exact mountRender_notin_resolveAction env.resolve u h h1
  unfold twitterPipeline
  split
  · intro hmem
    rcases List.mem_append.mp hmem with h1 | h1
    · split at h1 <;> simp at h1
    · split at h1
      · simp at h1
      · exact hres _ h1
  · split
    · simp
    · split
      · intro hmem
        rcases List.mem_append.mp hmem with h1 | h1
        · split at h1 <;> simp at h1
        · exact hres _ h1
      · simp

/-- `findBookmarkButton` only touches the processed flag. -/
theorem findBookmarkButton_resolve (env : TwEnv) :
    (findBookmarkButton env).2.resolve = env.resolve := by
  unfold findBookmarkButton
  cases h : env.bookmarkState with
  | none => rfl
  | some b => cases b <;> rfl

/-- C5 counterexample: the claim states that when `isSupported` returns
`false`, a pre-existing wrapper is left untouched (neither removed nor
emptied) and the DOM is exactly as before the dispatch.  At this concrete
input — a link-preview candidate whose container already holds a wrapper,
with every stage succeeding until `isSupported` declines — the dispatch has
already removed the pre-existing wrapper during extraction, before the
`isSupported` stage ran. -/
theorem unsupported_rejection_removed_wrapper :
    twEnvUnsupported.resolve.isSupported = some false ∧
    Effect.removeWrapper ∈ (handleNewNodeTwitter twEnvUnsupported).1 ∧
    Effect.mountRender ∉ (handleNewNodeTwitter twEnvUnsupported).1 := by
  refine ⟨rfl, ?_, ?_⟩ <;> decide

/-- C5 amended: when the adapter's `isSupported` predicate declines, no mount
is created — the render/`replaceChildren` step never runs, in either
pipeline.  (The DOM is not necessarily as before the dispatch: in the
link-preview branch a pre-existing wrapper was already removed during
extraction, and in the in-text branch a fresh wrapper was already inserted,
both before the `isSupported` stage.) -/
theorem unsupported_rejection_no_mount :
    (∀ env : TwEnv, env.resolve.isSupported = some false →
      Effect.mountRender ∉ (handleNewNodeTwitter env).1) ∧
    (∀ env : FcEnv, env.resolve.isSupported = some false →
      Effect.mountRender ∉ handleNewNodeFarcaster env) := by
  constructor
  · intro env h
    unfold handleNewNodeTwitter
    split
    · simp
    · intro hmem
      simp only at hmem
      rcases List.mem_append.mp hmem with h1 | h1
      · split at h1 <;> simp at h1
      · have h2 : (findBookmarkButton env).2.resolve.isSupported = some false := by
          rw [findBookmarkButton_resolve]; exact h
        exact mountRender_notin_twitterPipeline _ h2 h1
  · intro env h
    unfold handleNewNodeFarcaster
    split
    · simp
    · split
      · simp
      · cases ha : env.firstAnchor with
        | some anchor =>
            intro hmem
            rcases List.mem_append.mp hmem with h1 | h1
            · split at h1 <;> simp at h1
            · split at h1
              · simp at h1
              · exact mountRender_notin_resolveAction env.resolve anchor h h1
        | none =>
            show Effect.mountRender ∉
              (if env.linkParentExists = true then [Effect.insertWrapper env.isDm] else [])
            split <;> simp

/-- Witness for the C5 amended theorem at a concrete input. -/
theorem unsupported_rejection_no_mount_witness :
    Effect.mountRender ∉ (handleNewNodeTwitter twEnvUnsupported).1 :=
  unsupported_rejection_no_mount.1 twEnvUnsupported rfl

/-- C7: observation is gated on the registry.  The observer is attached (and
hence elements dispatched) only inside the `.then` callback of
`ActionsRegistry.getInstance().init()`: if the init promise never resolves,
the trace contains no attach and no dispatch, whatever mutations the page
would deliver; and any dispatch in any setup trace implies the init resolved. -/
theorem observer_gated_on_registry :
    (∀ batches : List (List MutationRecord),
      SetupEvent.attachObserver ∉ setupObserverTrace false batches ∧
      ∀ n : DomNode, SetupEvent.dispatch n ∉ setupObserverTrace false batches) ∧
    (∀ (b : Bool) (batches : List (List MutationRecord)) (n : DomNode),
      SetupEvent.dispatch n ∈ setupObserverTrace b batches → b = true) := by
  constructor
  · intro batches
    constructor
    · simp [setupObserverTrace]
    · intro n
      simp [setupObserverTrace]
  · intro b batches n hmem
    cases b with
    | false => simp [setupObserverTrace] at hmem
    | true => rfl

/-- Witness for C7 at concrete inputs. -/
theorem observer_gated_on_registry_witness :
    (true = true) ∧
    SetupEvent.attachObserver ∉
      setupObserverTrace false [[{ addedNodes := [DomNode.element 0] }]] :=
  ⟨observer_gated_on_registry.2 true [[{ addedNodes := [DomNode.element 0] }]]
      (DomNode.element 0) (by decide),
   (observer_gated_on_registry.1 [[{ addedNodes := [DomNode.element 0] }]]).1⟩

/-- A card-parent mount container: the parent of a link-preview card carries
host-page classes, not the `dialect-wrapper` class. -/
def cardParentContainer : Wrapper :=
  { classes := ["css-card-parent"], children := ["card"],
    marginTop := none, marginBottom := none }

/-- C8 counterexample: the claim states the top margin is applied to every
wrapper a mount renders into, including the card-parent container of the
link-preview branch.  Mounting into a card-parent container (which does not
carry the `dialect-wrapper` class) succeeds — the render replaces the
children — but `addMargin` leaves its top margin unset. -/
theorem cardParent_mount_without_margin :
    (mountInto cardParentContainer "render").children = ["render"] ∧
    (mountInto cardParentContainer "render").marginTop = none := by
  decide

/-- C8 amended: `addMargin` applies the 12px top margin only to mount targets
carrying the `dialect-wrapper` class (with the additional 8px bottom margin
for those also carrying `dialect-dm`); a mount target without the
`dialect-wrapper` class — such as the card-parent container of the
link-preview branch — keeps its margins unchanged. -/
theorem addMargin_only_dialect_wrapper :
    ∀ (w : Wrapper) (c : String),
      (w.classes.contains "dialect-wrapper" = true →
        (mountInto w c).marginTop = some 12 ∧
        (w.classes.contains "dialect-dm" = true →
          (mountInto w c).marginBottom = some 8)) ∧
      (w.classes.contains "dialect-wrapper" = false →
        (mountInto w c).marginTop = w.marginTop ∧
        (mountInto w c).marginBottom = w.marginBottom) := by
  intro w c
  cases h1 : w.classes.contains "dialect-wrapper" with
  | false =>
      have h1' : "dialect-wrapper" ∉ w.classes := by simpa using h1
      simp [mountInto, addMargin, h1, h1']
  | true =>
      have h1' : "dialect-wrapper" ∈ w.classes := by simpa using h1
      cases h2 : w.classes.contains "dialect-dm" with
      | false =>
          have h2' : "dialect-dm" ∉ w.classes := by simpa using h2
          simp [mountInto, addMargin, h1, h1', h2, h2']
      | true =>
          have h2' : "dialect-dm" ∈ w.classes := by simpa using h2
          simp [mountInto, addMargin, h1, h1', h2, h2']

/-- A message/DM-style wrapper: `dialect-wrapper` plus the `dialect-dm`
marker. -/
def dmWrapper : Wrapper :=
  { classes := ["dialect-wrapper", "dialect-dm"], children := [],
    marginTop := none, marginBottom := none }

/-- Witness for the C8 amended theorem at a concrete input. -/
theorem addMargin_only_dialect_wrapper_witness :
    (mountInto dmWrapper "render").marginTop = some 12 ∧
    (mountInto dmWrapper "render").marginBottom = some 8 :=
  ⟨((addMargin_only_dialect_wrapper dmWrapper "render").1 (by decide)).1,
   ((addMargin_only_dialect_wrapper dmWrapper "render").1 (by decide)).2 (by decide)⟩

/-- The resolution tail never inserts a promotional dropdown. -/
theorem insertDropdown_notin_postResolve (env : ResolveEnv) (u : Option String)
    (opts : List DropdownOption) :
    Effect.insertDropdown opts ∉ postResolve env u := by
  unfold postResolve
  rcases u with _ | v
  · simp
  · split
    · simp
    · intro hmem
      rcases List.mem_cons.mp hmem with h1 | h1
      · exact Effect.noConfusion h1
      · split at h1
        · simp at h1
        · split at h1 <;> simp at h1

/-- The resolution branches never insert a promotional dropdown. -/
theorem insertDropdown_notin_resolveAction (env : ResolveEnv) (url : URLT)
    (opts : List DropdownOption) :
    Effect.insertDropdown opts ∉ resolveAction env url := by
  unfold resolveAction
  split
  · split
    · simp
    · exact insertDropdown_notin_postResolve env _ opts
  · split
    · simp
    · simp only [List.mem_cons]
      rintro (h1 | h1)
      · exact Effect.noConfusion h1
      · split at h1
        · simp at h1
        · exact insertDropdown_notin_postResolve env _ opts h1

/-- The extraction/resolution pipeline never inserts a promotional dropdown:
only the bookmark-button side channel does. -/
theorem insertDropdown_notin_twitterPipeline (env : TwEnv)
    (opts : List DropdownOption) :
    Effect.insertDropdown opts ∉ twitterPipeline env := by
  have hres : ∀ (anchor : URLT),
      Effect.insertDropdown opts ∉ twitterPipeline.twitterResolve env anchor := by
    intro anchor hmem
    unfold twitterPipeline.twitterResolve at hmem
    rcases List.mem_cons.mp hmem with h1 | h1
    · exact Effect.noConfusion h1
    · cases hr : env.resolveResult with
      | none => rw [hr] at h1; simp at h1
      | some u => rw [hr] at h1; exact insertDropdown_notin_resolveAction env.resolve u opts h1
  unfold twitterPipeline
  split
  · intro hmem
    rcases List.mem_append.mp hmem with h1 | h1
    · split at h1 <;> simp at h1
    · split at h1
      · simp at h1
      · exact hres _ h1
  · split
    · simp
    · split
      · intro hmem
        rcases List.mem_append.mp hmem with h1 | h1
        · split at h1 <;> simp at h1
        · exact hres _ h1
      · simp

/-- A dispatch on a page whose bookmark-button parent is already marked
`data-dialect-processed` inserts no dropdown. -/
theorem dropdown_not_reinserted (env : TwEnv) (h : env.bookmarkState = some true)
    (opts : List DropdownOption) :
    Effect.insertDropdown opts ∉ (handleNewNodeTwitter env).1 := by
  have hfb : findBookmarkButton env = (false, env) := by
    unfold findBookmarkButton
    rw [h]
  unfold handleNewNodeTwitter
  split
  · simp
  · rw [hfb]
    simp only [List.nil_append, Bool.false_eq_true, if_false]
    exact insertDropdown_notin_twitterPipeline env opts

/-- C10: for a dispatched div whose bookmark-button parent is not yet marked
`data-dialect-processed`, the dispatch synchronously (before any security
check, resolution or network fetch — the first two trace entries, ahead of
every other effect) sets the marker and inserts the hard-coded promotional
dropdown with its four fixed options, regardless of whether the element
contains any action link; and because the marker is now set, a second
dispatch never inserts a second dropdown. -/
theorem bookmark_dropdown_inserted_once :
    ∀ env : TwEnv, env.localName = "div" → env.bookmarkState = some false →
      (handleNewNodeTwitter env).1.take 2
          = [Effect.markProcessed, Effect.insertDropdown twitterDropdownOptions] ∧
      twitterDropdownOptions.length = 4 ∧
      (handleNewNodeTwitter env).2.bookmarkState = some true ∧
      (∀ opts : List DropdownOption, Effect.insertDropdown opts ∉
        (handleNewNodeTwitter (handleNewNodeTwitter env).2).1) := by
  intro env h1 h2
  have hfb : findBookmarkButton env = (true, { env with bookmarkState := some true }) := by
    unfold findBookmarkButton
    rw [h2]
  have hrun : handleNewNodeTwitter env =
      ([Effect.markProcessed, Effect.insertDropdown twitterDropdownOptions] ++
        twitterPipeline { env with bookmarkState := some true },
       { env with bookmarkState := some true }) := by
    unfold handleNewNodeTwitter
    rw [hfb]
    simp [h1]
  refine ⟨?_, rfl, ?_, ?_⟩
  · rw [hrun]
    simp
  · rw [hrun]
  · intro opts
    rw [hrun]
    exact dropdown_not_reinserted { env with bookmarkState := some true } rfl opts

/-- A Twitter dispatch environment with an unprocessed bookmark button. -/
def twEnvBookmark : TwEnv :=
  { localName := "div"
    linkPreview := none
    cardParentExists := true
    bookmarkState := some false
    existingWrapper := false
    lastLink := none
    linkParentExists := true
    isDm := false
    resolveResult := none
    resolve := resolveEnvUnknownWebsite }

/-- Witness for C10 at a concrete input. -/
theorem bookmark_dropdown_inserted_once_witness :
    (handleNewNodeTwitter twEnvBookmark).1.take 2
        = [Effect.markProcessed, Effect.insertDropdown twitterDropdownOptions] ∧
    (handleNewNodeTwitter twEnvBookmark).2.bookmarkState = some true :=
  ⟨(bookmark_dropdown_inserted_once twEnvBookmark rfl rfl).1,
   (bookmark_dropdown_inserted_once twEnvBookmark rfl rfl).2.2.1⟩

end Blinks
